import Mathlib

/-!
Verification of the SIGE stock-ledger API (src/api/main.py).

The transactional core consists of four endpoints over three tables:

* produto              (SKU registry: name, min/max thresholds, cost)
* saldo_estoque        (cached current balance per SKU, last-update timestamp)
* movimentacao_estoque (append-only movement log: direction E/S, quantity)

Endpoints embedded below, in the order of the source file:

* cadastrar_produto   (POST /produtos       — register a SKU, balance starts at 0)
* lancar_movimentacao (POST /movimentacoes  — post an inbound/outbound movement
                       under a per-SKU row lock, SELECT FOR UPDATE)
* consultar_saldo     (GET /saldo/sku_id    — read the cached balance)
* listar_produtos     (GET /produtos        — join of produto and saldo_estoque)

Database rows are embedded as Lean structures, tables as lists of rows, the
database as a record of tables plus the autoincrement counter for mov_id.
SQL timestamps (func.now()) are passed in as an explicit `now : Nat` argument.
Storage-layer failures caught by the try/except blocks (which roll the
transaction back and surface HTTP 500) are modelled by a Bool argument `ok`:
`ok = false` means the write phase of the transaction raised, so the rollback
leaves the database untouched.  Python ints are Int, SQL Integer is Int.
-/

/-- A row of the produto table (tbl_produto in main.py). -/
structure Produto where
  sku_id : String
  nome : String
  nivel_minimo : Int
  nivel_maximo : Int
  custo_fabricacao : Float

/-- A row of the saldo_estoque table (tbl_saldo_estoque in main.py). -/
structure Saldo where
  sku_id : String
  saldo_atual : Int
  ultima_atualizacao : Nat
deriving DecidableEq

/-- A row of the movimentacao_estoque table (tbl_movimentacao_estoque). -/
structure Movimentacao where
  mov_id : Nat
  sku_id : String
  data_movimentacao : Nat
  tipo_movimentacao : String
  quantidade : Int
deriving DecidableEq

/-- The OLTP database: the three tables plus the autoincrement counter
backing movimentacao_estoque.mov_id. -/
structure DBState where
  produtos : List Produto
  saldos : List Saldo
  movimentacoes : List Movimentacao
  next_mov_id : Nat

/-- The freshly created database (metadata.create_all on an empty engine):
all tables empty, the mov_id sequence at its Postgres start value 1. -/
def emptyDB : DBState := ⟨[], [], [], 1⟩

/-- Request body of POST /produtos (pydantic model ProdutoCreate). -/
structure ProdutoCreate where
  sku_id : String
  nome : String
  nivel_minimo : Int
  nivel_maximo : Int
  custo_fabricacao : Float

/-- Request body of POST /movimentacoes (pydantic model MovimentacaoCreate).
Pydantic only enforces that quantidade is an integer; nothing constrains
its sign. -/
structure MovimentacaoCreate where
  sku_id : String
  tipo_movimentacao : String
  quantidade : Int
deriving DecidableEq

/-- An HTTP error raised by an endpoint (fastapi.HTTPException). -/
structure HTTPException where
  status_code : Nat
  detail : String
deriving DecidableEq

/-- Success body of POST /produtos. -/
structure CadastroResponse where
  message : String
  sku : String
deriving DecidableEq

/-- Success body of POST /movimentacoes. -/
structure MovimentacaoResponse where
  message : String
  sku : String
  novo_saldo : Int
  alerta_estoque_minimo : Bool
deriving DecidableEq

/-- One row of the GET /produtos join result. -/
structure ProdutoComSaldo where
  sku_id : String
  nome : String
  saldo_atual : Int
  nivel_minimo : Int
  custo_fabricacao : Float
  ultima_atualizacao : Nat

/-- db.execute(select(tbl_saldo_estoque).where(sku_id == sku)).first() -/
def findSaldo (saldos : List Saldo) (sku : String) : Option Saldo :=
  saldos.find? (fun s => s.sku_id == sku)

/-- db.execute(select(tbl_produto).where(sku_id == sku)).first() -/
def findProduto (produtos : List Produto) (sku : String) : Option Produto :=
  produtos.find? (fun p => p.sku_id == sku)

/-- The detail string of the insufficient-stock failure
(f-string "Estoque insuficiente. Saldo atual: \x7bsaldo_atual\x7d"). -/
def estoqueInsuficiente (saldo_atual : Int) : HTTPException :=
  ⟨400, "Estoque insuficiente. Saldo atual: " ++ toString saldo_atual⟩

/-- The invalid-direction failure raised before the session is opened.
The source message quotes the letters E and S in single quotes; the quotes
are elided here. -/
def tipoInvalido : HTTPException :=
  ⟨400, "Tipo de movimentação inválido. Use E para Entrada ou S para Saída."⟩

/-- The 404 raised by lancar_movimentacao when the SKU has no saldo row. -/
def skuSemSaldo : HTTPException := ⟨404, "SKU não encontrado no saldo."⟩

/-- The 500 produced by the except-branches; the appended exception text is
elided since no caller inspects it. -/
def erroBanco : HTTPException := ⟨500, "Erro no banco de dados"⟩

/-- Success message of POST /movimentacoes
(f-string "Movimentação '\x7btipo\x7d' registrada."; the single quotes
around the type letter are elided). -/
def movMessage (mov : MovimentacaoCreate) : String :=
  "Movimentação " ++ mov.tipo_movimentacao ++ " registrada."

/-- POST /produtos (cadastrar_produto in main.py): reject a duplicate SKU,
otherwise insert the produto row and a zero saldo row and commit; if the
write phase raises (ok = false) the rollback leaves the database unchanged
and the endpoint fails with 500. -/
def cadastrar_produto (produto : ProdutoCreate) (now : Nat) (ok : Bool)
    (db : DBState) : Except HTTPException CadastroResponse × DBState :=
  if (findProduto db.produtos produto.sku_id).isSome then
    (.error ⟨400, "SKU já cadastrado."⟩, db)
  else if ok then
    (.ok ⟨"Produto cadastrado e saldo inicializado com sucesso.", produto.sku_id⟩,
     { db with
        produtos := db.produtos ++
          [⟨produto.sku_id, produto.nome, produto.nivel_minimo,
            produto.nivel_maximo, produto.custo_fabricacao⟩],
        saldos := db.saldos ++ [⟨produto.sku_id, 0, now⟩] })
  else
    (.error erroBanco, db)

/-- Steps 2 and 3 of lancar_movimentacao, performed inside the transaction
while the row lock is held: append the movement row (mov_id drawn from the
autoincrement sequence, timestamp now) and overwrite saldo_atual and
ultima_atualizacao of every saldo row of this SKU. -/
def registrarMovEAtualizarSaldo (mov : MovimentacaoCreate) (now : Nat)
    (novo_saldo : Int) (db : DBState) : DBState :=
  { db with
    movimentacoes := db.movimentacoes ++
      [⟨db.next_mov_id, mov.sku_id, now, mov.tipo_movimentacao, mov.quantidade⟩],
    next_mov_id := db.next_mov_id + 1,
    saldos := db.saldos.map (fun s =>
      if s.sku_id == mov.sku_id then
        { s with saldo_atual := novo_saldo, ultima_atualizacao := now }
      else s) }

/-- Step 5 of lancar_movimentacao, the post-commit advisory alert: only for
an outbound movement, re-read the produto row and compare the new balance
with nivel_minimo; a missing produto row yields false. -/
def alertaMinimo (mov : MovimentacaoCreate) (novo_saldo : Int)
    (produtos : List Produto) : Bool :=
  if mov.tipo_movimentacao = "S" then
    match findProduto produtos mov.sku_id with
    | some produto_row => decide (novo_saldo < produto_row.nivel_minimo)
    | none => false
  else false

/-- Steps 2-5 of lancar_movimentacao once the new balance has been computed
and validated: commit the movement and the balance update (or fail with 500
and roll back if the write phase raises), then compute the alert and build
the response. -/
def finalizarMovimentacao (mov : MovimentacaoCreate) (now : Nat) (ok : Bool)
    (novo_saldo : Int) (db : DBState) :
    Except HTTPException MovimentacaoResponse × DBState :=
  if ok then
    let db2 := registrarMovEAtualizarSaldo mov now novo_saldo db
    (.ok ⟨movMessage mov, mov.sku_id, novo_saldo,
          alertaMinimo mov novo_saldo db2.produtos⟩, db2)
  else
    (.error erroBanco, db)

/-- POST /movimentacoes (lancar_movimentacao in main.py): validate the
direction before the session is opened; lock and read the saldo row
(SELECT FOR UPDATE), 404 if absent; for an entrada add the quantity, for a
saída reject a quantity above the current balance (400, reporting the
balance) and otherwise subtract; append the movement, update the balance,
commit, and compute the advisory minimum-stock alert. -/
def lancar_movimentacao (mov : MovimentacaoCreate) (now : Nat) (ok : Bool)
    (db : DBState) : Except HTTPException MovimentacaoResponse × DBState :=
  if mov.tipo_movimentacao ≠ "E" ∧ mov.tipo_movimentacao ≠ "S" then
    (.error tipoInvalido, db)
  else
    match findSaldo db.saldos mov.sku_id with
    | none => (.error skuSemSaldo, db)
    | some saldo_atual_row =>
      let saldo_atual := saldo_atual_row.saldo_atual
      if mov.tipo_movimentacao = "E" then
        finalizarMovimentacao mov now ok (saldo_atual + mov.quantidade) db
      else if mov.quantidade > saldo_atual then
        (.error (estoqueInsuficiente saldo_atual), db)
      else
        finalizarMovimentacao mov now ok (saldo_atual - mov.quantidade) db

/-- GET /saldo/sku_id (consultar_saldo in main.py): read-only lookup of the
saldo row, 404 if the SKU is unknown. -/
def consultar_saldo (sku_id : String) (db : DBState) :
    Except HTTPException Saldo × DBState :=
  match findSaldo db.saldos sku_id with
  | none => (.error ⟨404, "SKU não encontrado."⟩, db)
  | some saldo_row => (.ok saldo_row, db)

/-- GET /produtos (listar_produtos in main.py): inner join of produto and
saldo_estoque on sku_id, projected to the reported columns. -/
def listar_produtos (db : DBState) :
    Except HTTPException (List ProdutoComSaldo) × DBState :=
  (.ok (db.produtos.foldr (fun p acc =>
      ((db.saldos.filter (fun s => s.sku_id == p.sku_id)).map (fun s =>
        ⟨p.sku_id, p.nome, s.saldo_atual, p.nivel_minimo,
         p.custo_fabricacao, s.ultima_atualizacao⟩)) ++ acc) []), db)

example :
    (lancar_movimentacao ⟨"A1", "S", 7⟩ 2 true
      ⟨[⟨"A1", "Parafuso", 5, 100, 2.0⟩], [⟨"A1", 10, 1⟩], [], 1⟩).1 =
    .ok ⟨movMessage ⟨"A1", "S", 7⟩, "A1", 3, true⟩ := by
  rfl

/-! ### Helper lemmas about the write helpers -/

/-- The update step keeps the produto table untouched. -/
@[simp]
theorem produtos_registrar (mov : MovimentacaoCreate) (now : Nat) (novo : Int)
    (db : DBState) :
    (registrarMovEAtualizarSaldo mov now novo db).produtos = db.produtos := rfl

/-- Looking a SKU up after the balance update: the same row is found, with
saldo_atual and ultima_atualizacao rewritten when the row belongs to the
moved SKU. -/
theorem findSaldo_registrar (mov : MovimentacaoCreate) (now : Nat) (novo : Int)
    (db : DBState) (sku : String) :
    findSaldo (registrarMovEAtualizarSaldo mov now novo db).saldos sku =
      (findSaldo db.saldos sku).map (fun s =>
        if s.sku_id == mov.sku_id then
          { s with saldo_atual := novo, ultima_atualizacao := now }
        else s) := by
  show (db.saldos.map _).find? _ = (db.saldos.find? _).map _
  rw [List.find?_map]
  have hp : ((fun s : Saldo => s.sku_id == sku) ∘ (fun s =>
      if s.sku_id == mov.sku_id then
        { s with saldo_atual := novo, ultima_atualizacao := now }
      else s)) = (fun s : Saldo => s.sku_id == sku) := by
    funext s
    by_cases h : s.sku_id == mov.sku_id <;> simp [Function.comp, h]
  rw [hp]

/-- Equation for a committed entrada: the endpoint returns the response
with balance current + quantity (alert computed on the unchanged produto
table) and the database produced by the insert-update-commit helper. -/
theorem lancar_entrada_eq (mov : MovimentacaoCreate) (now : Nat)
    (db : DBState) (r : Saldo)
    (hE : mov.tipo_movimentacao = "E")
    (hfind : findSaldo db.saldos mov.sku_id = some r) :
    lancar_movimentacao mov now true db =
      (.ok ⟨movMessage mov, mov.sku_id, r.saldo_atual + mov.quantidade,
          alertaMinimo mov (r.saldo_atual + mov.quantidade) db.produtos⟩,
       registrarMovEAtualizarSaldo mov now (r.saldo_atual + mov.quantidade) db) := by
  unfold lancar_movimentacao
  rw [if_neg (by simp [hE]), hfind]
  simp [hE, finalizarMovimentacao]

/-- Equation for a committed saída with sufficient stock: the endpoint
returns the response with balance current - quantity and the database
produced by the insert-update-commit helper. -/
theorem lancar_saida_eq (mov : MovimentacaoCreate) (now : Nat)
    (db : DBState) (r : Saldo)
    (hS : mov.tipo_movimentacao = "S")
    (hfind : findSaldo db.saldos mov.sku_id = some r)
    (hle : ¬(mov.quantidade > r.saldo_atual)) :
    lancar_movimentacao mov now true db =
      (.ok ⟨movMessage mov, mov.sku_id, r.saldo_atual - mov.quantidade,
          alertaMinimo mov (r.saldo_atual - mov.quantidade) db.produtos⟩,
       registrarMovEAtualizarSaldo mov now (r.saldo_atual - mov.quantidade) db) := by
  unfold lancar_movimentacao
  rw [if_neg (by simp [hS]), hfind]
  simp [hS, hle, finalizarMovimentacao]

/-- Equation for a rejected saída: a quantity above the current balance
aborts the transaction with the insufficient-stock 400 and leaves the
database unchanged. -/
theorem lancar_saida_insuficiente_eq (mov : MovimentacaoCreate) (now : Nat)
    (ok : Bool) (db : DBState) (r : Saldo)
    (hS : mov.tipo_movimentacao = "S")
    (hfind : findSaldo db.saldos mov.sku_id = some r)
    (hgt : mov.quantidade > r.saldo_atual) :
    lancar_movimentacao mov now ok db =
      (.error (estoqueInsuficiente r.saldo_atual), db) := by
  simp [lancar_movimentacao, hS, hfind, hgt]

/-! ### Example fixture used by the witnesses -/

/-- The produto of scenario 1 of the spec. -/
def produtoA1 : Produto := ⟨"A1", "Parafuso", 5, 100, 2.0⟩

/-- A database holding produto A1 with balance 10 (the state reached after
scenarios 1 and 2 of the spec). -/
def dbExemplo : DBState := ⟨[produtoA1], [⟨"A1", 10, 1⟩], [], 1⟩

/-! ### C3: insufficient stock on outbound -/

/-- Claim C3: an outbound movement whose quantity exceeds the current
balance of a registered SKU fails with the insufficient-stock error, whose
detail reports the current balance, and the database (movement log and
saldo row, quantity and timestamp alike) is returned unchanged. -/
theorem c3_saida_insuficiente (mov : MovimentacaoCreate) (now : Nat)
    (ok : Bool) (db : DBState) (r : Saldo)
    (htipo : mov.tipo_movimentacao = "S")
    (hfind : findSaldo db.saldos mov.sku_id = some r)
    (hq : mov.quantidade > r.saldo_atual) :
    lancar_movimentacao mov now ok db =
      (.error (estoqueInsuficiente r.saldo_atual), db) :=
  lancar_saida_insuficiente_eq mov now ok db r htipo hfind hq

/-- Scenario 4 of the spec: outbound 50 against balance 10 fails, reporting
balance 10, and the database is unchanged. -/
theorem c3_saida_insuficiente_witness :
    ("S" = "S") ∧ findSaldo dbExemplo.saldos "A1" = some ⟨"A1", 10, 1⟩ ∧
      ((50 : Int) > 10) ∧
      lancar_movimentacao ⟨"A1", "S", 50⟩ 2 true dbExemplo =
        (.error (estoqueInsuficiente 10), dbExemplo) :=
  ⟨rfl, rfl, by decide,
    c3_saida_insuficiente ⟨"A1", "S", 50⟩ 2 true dbExemplo ⟨"A1", 10, 1⟩
      rfl rfl (by decide)⟩

/-! ### C4: validation before the transaction -/

/-- Claim C4 (amended): a movement whose direction is neither E nor S fails
with the invalid-direction 400 before the session is opened, leaving every
table unchanged.  (The original claim also asserted that a non-positive
integer quantity is rejected; the counterexample below refutes that part:
the pydantic boundary only enforces that quantidade is an integer.) -/
theorem c4_tipo_invalido (mov : MovimentacaoCreate) (now : Nat) (ok : Bool)
    (db : DBState)
    (h : mov.tipo_movimentacao ≠ "E" ∧ mov.tipo_movimentacao ≠ "S") :
    lancar_movimentacao mov now ok db = (.error tipoInvalido, db) := by
  unfold lancar_movimentacao
  rw [if_pos h]

theorem c4_tipo_invalido_witness :
    (("X" : String) ≠ "E" ∧ ("X" : String) ≠ "S") ∧
      lancar_movimentacao ⟨"A1", "X", 5⟩ 2 true dbExemplo =
        (.error tipoInvalido, dbExemplo) :=
  ⟨by decide, c4_tipo_invalido ⟨"A1", "X", 5⟩ 2 true dbExemplo (by decide)⟩

/-- Counterexample to claim C4 as stated: the quantity -3 is an integer but
not a positive one, yet the movement is not rejected with InvalidArgument:
the call succeeds, a movement row is committed, and the (inbound!) posting
lowers the balance from 10 to 7. -/
theorem c4_counterexample :
    ¬ (0 : Int) < -3 ∧
      (lancar_movimentacao ⟨"A1", "E", -3⟩ 2 true dbExemplo).1 =
        .ok ⟨movMessage ⟨"A1", "E", -3⟩, "A1", 7, false⟩ ∧
      (lancar_movimentacao ⟨"A1", "E", -3⟩ 2 true dbExemplo).2.movimentacoes =
        [⟨1, "A1", 2, "E", -3⟩] ∧
      (lancar_movimentacao ⟨"A1", "E", -3⟩ 2 true dbExemplo).2.saldos =
        [⟨"A1", 7, 2⟩] :=
  ⟨by decide, rfl, rfl, rfl⟩

/-! ### C5: new balance and advisory alert of a successful movement -/

/-- Claim C5: a successful movement on a SKU whose saldo and produto rows
exist returns and stores new balance current + quantity for an entrada and
current - quantity for a saída, and the alert flag is true exactly for a
saída whose new balance is strictly below the produto minimum threshold
(in particular it is always false for an entrada). -/
theorem c5_saldo_e_alerta (mov : MovimentacaoCreate) (now : Nat) (ok : Bool)
    (db : DBState) (r : Saldo) (p : Produto) (resp : MovimentacaoResponse)
    (_hq : 0 < mov.quantidade)
    (hfind : findSaldo db.saldos mov.sku_id = some r)
    (hprod : findProduto db.produtos mov.sku_id = some p)
    (hok : (lancar_movimentacao mov now ok db).1 = .ok resp) :
    resp.novo_saldo = (if mov.tipo_movimentacao = "E" then
        r.saldo_atual + mov.quantidade else r.saldo_atual - mov.quantidade) ∧
    (resp.alerta_estoque_minimo = true ↔
      (mov.tipo_movimentacao = "S" ∧ resp.novo_saldo < p.nivel_minimo)) ∧
    findSaldo (lancar_movimentacao mov now ok db).2.saldos mov.sku_id =
      some ⟨mov.sku_id, resp.novo_saldo, now⟩ := by
  have hsku : r.sku_id = mov.sku_id := by
    have := List.find?_some hfind
    simpa [findSaldo] using this
  cases ok with
  | false =>
    exfalso
    unfold lancar_movimentacao finalizarMovimentacao at hok
    by_cases htipo : mov.tipo_movimentacao ≠ "E" ∧ mov.tipo_movimentacao ≠ "S"
    · rw [if_pos htipo] at hok; exact Except.noConfusion hok
    · rw [if_neg htipo, hfind] at hok
      by_cases hE : mov.tipo_movimentacao = "E"
      · simp [hE] at hok
      · by_cases hgt : mov.quantidade > r.saldo_atual <;> simp [hE, hgt] at hok
  | true =>
    have htipo' : mov.tipo_movimentacao = "E" ∨ mov.tipo_movimentacao = "S" := by
      by_cases hE : mov.tipo_movimentacao = "E"
      · exact Or.inl hE
      · by_cases hS : mov.tipo_movimentacao = "S"
        · exact Or.inr hS
        · exfalso
          unfold lancar_movimentacao at hok
          rw [if_pos ⟨hE, hS⟩] at hok
          exact Except.noConfusion hok
    rcases htipo' with hE | hS
    · rw [lancar_entrada_eq mov now db r hE hfind] at hok ⊢
      have hresp : resp = ⟨movMessage mov, mov.sku_id,
          r.saldo_atual + mov.quantidade,
          alertaMinimo mov (r.saldo_atual + mov.quantidade) db.produtos⟩ := by
        simpa using hok.symm
      subst hresp
      refine ⟨by simp [hE], ?_, ?_⟩
      · simp [alertaMinimo, hE]
      · rw [findSaldo_registrar, hfind]
        simp [hsku]
    · by_cases hgt : mov.quantidade > r.saldo_atual
      · exfalso
        rw [lancar_saida_insuficiente_eq mov now true db r hS hfind hgt] at hok
        exact Except.noConfusion hok
      · rw [lancar_saida_eq mov now db r hS hfind hgt] at hok ⊢
        have hresp : resp = ⟨movMessage mov, mov.sku_id,
            r.saldo_atual - mov.quantidade,
            alertaMinimo mov (r.saldo_atual - mov.quantidade) db.produtos⟩ := by
          simpa using hok.symm
        subst hresp
        refine ⟨by simp [hS], ?_, ?_⟩
        · simp [alertaMinimo, hS, hprod]
        · rw [findSaldo_registrar, hfind]
          simp [hsku]

/-- Scenario 3 of the spec: outbound 7 against balance 10 with minimum 5
gives balance 3 and a raised alert. -/
theorem c5_saldo_e_alerta_witness :
    (0 : Int) < 7 ∧
      findSaldo dbExemplo.saldos "A1" = some ⟨"A1", 10, 1⟩ ∧
      findProduto dbExemplo.produtos "A1" = some produtoA1 ∧
      (lancar_movimentacao ⟨"A1", "S", 7⟩ 2 true dbExemplo).1 =
        .ok ⟨movMessage ⟨"A1", "S", 7⟩, "A1", 3, true⟩ ∧
      ((3 : Int) = (if ("S" : String) = "E" then 10 + 7 else 10 - 7) ∧
        (true = true ↔ (("S" : String) = "S" ∧ (3 : Int) < produtoA1.nivel_minimo)) ∧
        findSaldo (lancar_movimentacao ⟨"A1", "S", 7⟩ 2 true dbExemplo).2.saldos "A1" =
          some ⟨"A1", 3, 2⟩) :=
  ⟨by decide, rfl, rfl, rfl,
    c5_saldo_e_alerta ⟨"A1", "S", 7⟩ 2 true dbExemplo ⟨"A1", 10, 1⟩ produtoA1
      ⟨movMessage ⟨"A1", "S", 7⟩, "A1", 3, true⟩ (by decide) rfl rfl rfl⟩

/-! ### C6: atomic registration -/

/-- Claim C6: registering a fresh SKU atomically appends the produto row
and a zero-quantity saldo row in one transaction; if the write phase fails,
neither row persists and the endpoint fails with the storage error. -/
theorem c6_cadastro_atomico (p : ProdutoCreate) (now : Nat) (ok : Bool)
    (db : DBState) (hnone : findProduto db.produtos p.sku_id = none) :
    (ok = true → cadastrar_produto p now ok db =
      (.ok ⟨"Produto cadastrado e saldo inicializado com sucesso.", p.sku_id⟩,
       { db with
          produtos := db.produtos ++
            [⟨p.sku_id, p.nome, p.nivel_minimo, p.nivel_maximo,
              p.custo_fabricacao⟩],
          saldos := db.saldos ++ [⟨p.sku_id, 0, now⟩] })) ∧
    (ok = false → cadastrar_produto p now ok db = (.error erroBanco, db)) := by
  constructor <;> intro h <;> simp [cadastrar_produto, hnone, h]

/-- Scenario 1 of the spec: registering A1 on the empty database yields the
produto row plus a balance initialized to 0. -/
theorem c6_cadastro_atomico_witness :
    findProduto emptyDB.produtos "A1" = none ∧
      (true = true → cadastrar_produto ⟨"A1", "Parafuso", 5, 100, 2.0⟩ 1 true emptyDB =
        (.ok ⟨"Produto cadastrado e saldo inicializado com sucesso.", "A1"⟩,
         { emptyDB with
            produtos := emptyDB.produtos ++ [⟨"A1", "Parafuso", 5, 100, 2.0⟩],
            saldos := emptyDB.saldos ++ [⟨"A1", 0, 1⟩] })) ∧
      (true = false → cadastrar_produto ⟨"A1", "Parafuso", 5, 100, 2.0⟩ 1 true emptyDB =
        (.error erroBanco, emptyDB)) :=
  ⟨rfl,
    (c6_cadastro_atomico ⟨"A1", "Parafuso", 5, 100, 2.0⟩ 1 true emptyDB rfl).1,
    (c6_cadastro_atomico ⟨"A1", "Parafuso", 5, 100, 2.0⟩ 1 true emptyDB rfl).2⟩

/-! ### C7: duplicate registration -/

/-- Claim C7: registering an already existing SKU fails with the 400
conflict and the database, in particular the original produto row and its
saldo row, is returned unchanged. -/
theorem c7_sku_duplicado (p : ProdutoCreate) (now : Nat) (ok : Bool)
    (db : DBState) (q : Produto)
    (hdup : findProduto db.produtos p.sku_id = some q) :
    cadastrar_produto p now ok db = (.error ⟨400, "SKU já cadastrado."⟩, db) := by
  simp [cadastrar_produto, hdup]

/-- Scenario 6 of the spec: registering A1 a second time fails with the
conflict and leaves the database untouched. -/
theorem c7_sku_duplicado_witness :
    findProduto dbExemplo.produtos "A1" = some produtoA1 ∧
      cadastrar_produto ⟨"A1", "Outro", 1, 2, 3.0⟩ 9 true dbExemplo =
        (.error ⟨400, "SKU já cadastrado."⟩, dbExemplo) :=
  ⟨rfl, c7_sku_duplicado ⟨"A1", "Outro", 1, 2, 3.0⟩ 9 true dbExemplo produtoA1 rfl⟩

/-! ### C8: movement against an unregistered SKU -/

/-- Claim C8: a movement with a valid direction against a SKU that has no
saldo row fails with the 404, adding no movement row and changing no
balance (the database is returned unchanged). -/
theorem c8_sku_nao_encontrado (mov : MovimentacaoCreate) (now : Nat)
    (ok : Bool) (db : DBState)
    (htipo : mov.tipo_movimentacao = "E" ∨ mov.tipo_movimentacao = "S")
    (hnone : findSaldo db.saldos mov.sku_id = none) :
    lancar_movimentacao mov now ok db = (.error skuSemSaldo, db) := by
  have h : ¬(mov.tipo_movimentacao ≠ "E" ∧ mov.tipo_movimentacao ≠ "S") := by
    rcases htipo with h | h <;> simp [h]
  unfold lancar_movimentacao
  rw [if_neg h, hnone]

/-- Scenario 5 of the spec: a movement on the unregistered SKU ZZ fails
with the 404 and the database is unchanged. -/
theorem c8_sku_nao_encontrado_witness :
    (("E" : String) = "E" ∨ ("E" : String) = "S") ∧
      findSaldo dbExemplo.saldos "ZZ" = none ∧
      lancar_movimentacao ⟨"ZZ", "E", 5⟩ 3 true dbExemplo =
        (.error skuSemSaldo, dbExemplo) :=
  ⟨Or.inl rfl, rfl,
    c8_sku_nao_encontrado ⟨"ZZ", "E", 5⟩ 3 true dbExemplo (Or.inl rfl) rfl⟩

/-! ### C9: reads are pure -/

/-- Claim C9: consultar_saldo leaves the database (produto, saldo and
movement tables alike) unchanged, and two consecutive calls with no
movement in between return identical results. -/
theorem c9_consulta_idempotente (sku_id : String) (db : DBState) :
    (consultar_saldo sku_id db).2 = db ∧
    consultar_saldo sku_id ((consultar_saldo sku_id db).2) =
      consultar_saldo sku_id db := by
  cases h : findSaldo db.saldos sku_id <;> simp [consultar_saldo, h]

/-! ### C1: the ledger invariant

`balance.quantity == sum of signed Movement quantities for that SKU`, and
`balance.quantity >= 0`, after any sequence of API calls from the empty
database in which every movement has a valid direction and positive
quantity. -/

/-- The signed quantity of a movement row: entradas count positive,
saídas negative. -/
def signedQty (m : Movimentacao) : Int :=
  if m.tipo_movimentacao = "E" then m.quantidade else -m.quantidade

/-- Sum of the signed quantities of the movements of one SKU. -/
def signedSum (movs : List Movimentacao) (sku : String) : Int :=
  ((movs.filter (fun m => m.sku_id == sku)).map signedQty).sum

/-- One call against the API, as admitted at the service boundary. -/
inductive Op where
  | register (produto : ProdutoCreate) (now : Nat) (ok : Bool)
  | postMovement (mov : MovimentacaoCreate) (now : Nat) (ok : Bool)
  | getBalance (sku_id : String)
  | listProducts

/-- The database produced by one API call (the response is discarded). -/
def applyOp (db : DBState) (op : Op) : DBState :=
  match op with
  | .register p now ok => (cadastrar_produto p now ok db).2
  | .postMovement m now ok => (lancar_movimentacao m now ok db).2
  | .getBalance sku => (consultar_saldo sku db).2
  | .listProducts => (listar_produtos db).2

/-- The database after a sequence of API calls against the fresh database. -/
def applyOps (ops : List Op) : DBState := ops.foldl applyOp emptyDB

/-- The hypothesis of claim C1 on one call: movements carry a valid
direction and a positive quantity; the other calls are unrestricted. -/
def validOp : Op → Prop
  | .postMovement m _ _ =>
      (m.tipo_movimentacao = "E" ∨ m.tipo_movimentacao = "S") ∧ 0 < m.quantidade
  | _ => True

instance (op : Op) : Decidable (validOp op) :=
  match op with
  | .register _ _ _ => isTrue trivial
  | .postMovement _ _ _ => instDecidableAnd
  | .getBalance _ => isTrue trivial
  | .listProducts => isTrue trivial

/-- The balance-cache consistency stated by the spec: every saldo row holds
the signed movement sum of its SKU, and it is non-negative. -/
def balanceInvariant (db : DBState) : Prop :=
  ∀ s ∈ db.saldos, s.saldo_atual = signedSum db.movimentacoes s.sku_id ∧
    0 ≤ s.saldo_atual

/-- The inductive strengthening: balance consistency, every movement
belongs to a SKU that has a saldo row, and every saldo row belongs to a
registered produto. -/
def StateInv (db : DBState) : Prop :=
  balanceInvariant db ∧
  (∀ m ∈ db.movimentacoes, ∃ s ∈ db.saldos, s.sku_id = m.sku_id) ∧
  (∀ s ∈ db.saldos, ∃ p ∈ db.produtos, p.sku_id = s.sku_id)

theorem signedSum_append_single (movs : List Movimentacao)
    (m : Movimentacao) (sku : String) :
    signedSum (movs ++ [m]) sku =
      signedSum movs sku + (if m.sku_id == sku then signedQty m else 0) := by
  unfold signedSum
  rw [List.filter_append]
  by_cases h : m.sku_id == sku <;> simp [h]

theorem signedSum_eq_zero (movs : List Movimentacao) (sku : String)
    (h : ∀ m ∈ movs, ¬(m.sku_id = sku)) : signedSum movs sku = 0 := by
  unfold signedSum
  have : movs.filter (fun m => m.sku_id == sku) = [] := by
    rw [List.filter_eq_nil_iff]
    intro m hm
    simpa using h m hm
  rw [this]
  rfl

/-- The conditional balance overwrite never changes the key of a row. -/
theorem sku_id_atualizaSaldo (s : Saldo) (k : String) (novo : Int) (now : Nat) :
    (if s.sku_id == k then
      { s with saldo_atual := novo, ultima_atualizacao := now } else s).sku_id =
    s.sku_id := by
  by_cases h : s.sku_id == k <;> simp [h]

/-- Registration preserves the strengthened invariant. -/
theorem stateInv_cadastrar (p : ProdutoCreate) (now : Nat) (ok : Bool)
    (db : DBState) (hinv : StateInv db) :
    StateInv (cadastrar_produto p now ok db).2 := by
  obtain ⟨hbal, hmov, hsal⟩ := hinv
  unfold cadastrar_produto
  cases hdup : (findProduto db.produtos p.sku_id).isSome with
  | true => simpa using ⟨hbal, hmov, hsal⟩
  | false =>
    cases ok with
    | false => simpa using ⟨hbal, hmov, hsal⟩
    | true =>
      have hnone : findProduto db.produtos p.sku_id = none :=
        Option.not_isSome_iff_eq_none.mp (by simp [hdup])
      have hnoprod : ∀ pr ∈ db.produtos, ¬(pr.sku_id = p.sku_id) := by
        intro pr hpr
        have := List.find?_eq_none.mp hnone pr hpr
        simpa using this
      have hnosal : ∀ s ∈ db.saldos, ¬(s.sku_id = p.sku_id) := by
        intro s hs heq
        obtain ⟨pr, hpr, hpr'⟩ := hsal s hs
        exact hnoprod pr hpr (hpr'.trans heq)
      have hnomov : ∀ m ∈ db.movimentacoes, ¬(m.sku_id = p.sku_id) := by
        intro m hm heq
        obtain ⟨s, hs, hs'⟩ := hmov m hm
        exact hnosal s hs (hs'.trans heq)
      simp only [Bool.false_eq_true, if_false, if_true, hdup]
      refine ⟨?_, ?_, ?_⟩
      · intro s hs
        rcases List.mem_append.mp hs with hold | hnew
        · exact hbal s hold
        · rcases List.mem_singleton.mp hnew with rfl
          exact ⟨(signedSum_eq_zero _ _ hnomov).symm, le_refl 0⟩
      · intro m hm
        obtain ⟨s, hs, hs'⟩ := hmov m hm
        exact ⟨s, List.mem_append_left _ hs, hs'⟩
      · intro s hs
        rcases List.mem_append.mp hs with hold | hnew
        · obtain ⟨pr, hpr, hpr'⟩ := hsal s hold
          exact ⟨pr, List.mem_append_left _ hpr, hpr'⟩
        · rcases List.mem_singleton.mp hnew with rfl
          exact ⟨⟨p.sku_id, p.nome, p.nivel_minimo, p.nivel_maximo,
            p.custo_fabricacao⟩, List.mem_append_right _ (List.mem_singleton.mpr rfl), rfl⟩

/-- The committed write phase of a movement preserves the strengthened
invariant, provided the new balance is the old signed sum adjusted by the
movement and is non-negative. -/
theorem stateInv_registrar (mov : MovimentacaoCreate) (now : Nat)
    (novo : Int) (db : DBState) (r : Saldo) (hinv : StateInv db)
    (hfind : findSaldo db.saldos mov.sku_id = some r)
    (hnovo : novo = r.saldo_atual +
      (if mov.tipo_movimentacao = "E" then mov.quantidade else -mov.quantidade))
    (hpos : 0 ≤ novo) :
    StateInv (registrarMovEAtualizarSaldo mov now novo db) := by
  obtain ⟨hbal, hmov, hsal⟩ := hinv
  have hrmem : r ∈ db.saldos := List.mem_of_find?_eq_some hfind
  have hrsku : r.sku_id = mov.sku_id := by
    have := List.find?_some hfind
    simpa using this
  have hsum : signedSum db.movimentacoes mov.sku_id = r.saldo_atual := by
    rw [← hrsku]
    exact ((hbal r hrmem).1).symm
  set newMov : Movimentacao :=
    ⟨db.next_mov_id, mov.sku_id, now, mov.tipo_movimentacao, mov.quantidade⟩ with hnewMov
  have hqty : signedQty newMov =
      (if mov.tipo_movimentacao = "E" then mov.quantidade else -mov.quantidade) := by
    simp [signedQty, hnewMov]
  refine ⟨?_, ?_, ?_⟩
  · intro s' hs'
    simp only [registrarMovEAtualizarSaldo] at hs'
    rcases List.mem_map.mp hs' with ⟨s, hs, hfs⟩
    by_cases hsk : s.sku_id == mov.sku_id
    · subst hfs
      rw [if_pos hsk]
      have hskeq : s.sku_id = mov.sku_id := by simpa using hsk
      constructor
      · show novo = signedSum (registrarMovEAtualizarSaldo mov now novo db).movimentacoes _
        simp only [registrarMovEAtualizarSaldo]
        rw [signedSum_append_single]
        have : (newMov.sku_id == s.sku_id) = true := by simp [hnewMov, hskeq]
        rw [this]
        simp only [if_true]
        rw [hskeq, hsum, hqty, hnovo]
      · exact hpos
    · subst hfs
      rw [if_neg hsk]
      have hskne : ¬(s.sku_id = mov.sku_id) := by simpa using hsk
      obtain ⟨h1, h2⟩ := hbal s hs
      constructor
      · show s.saldo_atual = signedSum (registrarMovEAtualizarSaldo mov now novo db).movimentacoes _
        simp only [registrarMovEAtualizarSaldo]
        rw [signedSum_append_single]
        have : (newMov.sku_id == s.sku_id) = false := by
          simp [hnewMov]
          exact fun h => hskne h.symm
        rw [this]
        simpa using h1
      · exact h2
  · intro m hm
    simp only [registrarMovEAtualizarSaldo] at hm ⊢
    rcases List.mem_append.mp hm with hold | hnew
    · obtain ⟨s, hs, hs'⟩ := hmov m hold
      refine ⟨if s.sku_id == mov.sku_id then
          { s with saldo_atual := novo, ultima_atualizacao := now } else s,
        List.mem_map.mpr ⟨s, hs, rfl⟩, ?_⟩
      rw [sku_id_atualizaSaldo]
      exact hs'
    · rcases List.mem_singleton.mp hnew with rfl
      refine ⟨if r.sku_id == mov.sku_id then
          { r with saldo_atual := novo, ultima_atualizacao := now } else r,
        List.mem_map.mpr ⟨r, hrmem, rfl⟩, ?_⟩
      rw [sku_id_atualizaSaldo]
      exact hrsku
  · intro s' hs'
    simp only [registrarMovEAtualizarSaldo] at hs'
    rcases List.mem_map.mp hs' with ⟨s, hs, hfs⟩
    obtain ⟨pr, hpr, hpr'⟩ := hsal s hs
    subst hfs
    refine ⟨pr, hpr, ?_⟩
    rw [sku_id_atualizaSaldo]
    exact hpr'

/-- A movement with valid direction and positive quantity preserves the
strengthened invariant, whatever branch it takes. -/
theorem stateInv_lancar (mov : MovimentacaoCreate) (now : Nat) (ok : Bool)
    (db : DBState) (hinv : StateInv db)
    (htipo : mov.tipo_movimentacao = "E" ∨ mov.tipo_movimentacao = "S")
    (hq : 0 < mov.quantidade) :
    StateInv (lancar_movimentacao mov now ok db).2 := by
  unfold lancar_movimentacao
  have hn : ¬(mov.tipo_movimentacao ≠ "E" ∧ mov.tipo_movimentacao ≠ "S") := by
    rcases htipo with h | h <;> simp [h]
  rw [if_neg hn]
  cases hfind : findSaldo db.saldos mov.sku_id with
  | none => exact hinv
  | some r =>
    have hr0 : 0 ≤ r.saldo_atual :=
      (hinv.1 r (List.mem_of_find?_eq_some hfind)).2
    cases ok with
    | false =>
      rcases htipo with hE | hS
      · simpa [hE, finalizarMovimentacao] using hinv
      · by_cases hgt : mov.quantidade > r.saldo_atual
        · simpa [hS, hgt] using hinv
        · simpa [hS, hgt, finalizarMovimentacao] using hinv
    | true =>
      rcases htipo with hE | hS
      · simp only [hE, if_pos rfl, finalizarMovimentacao, if_true]
        exact stateInv_registrar mov now _ db r hinv hfind (by simp [hE]) (by linarith)
      · have hSne : ¬(mov.tipo_movimentacao = "E") := by simp [hS]
        by_cases hgt : mov.quantidade > r.saldo_atual
        · simpa [hSne, hgt] using hinv
        · simp only [hSne, if_false, hgt, finalizarMovimentacao, if_true]
          have hle : mov.quantidade ≤ r.saldo_atual := by linarith [not_lt.mp hgt]
          exact stateInv_registrar mov now _ db r hinv hfind
            (by simp [hSne]; ring) (by linarith)

/-- Every valid call preserves the strengthened invariant. -/
theorem stateInv_applyOp (db : DBState) (op : Op) (hinv : StateInv db)
    (hval : validOp op) : StateInv (applyOp db op) := by
  cases op with
  | register p now ok => exact stateInv_cadastrar p now ok db hinv
  | postMovement m now ok => exact stateInv_lancar m now ok db hinv hval.1 hval.2
  | getBalance sku =>
    show StateInv (consultar_saldo sku db).2
    cases h : findSaldo db.saldos sku <;> simpa [consultar_saldo, h] using hinv
  | listProducts => exact hinv

theorem stateInv_foldl (ops : List Op) (db : DBState) (hinv : StateInv db)
    (hval : ∀ op ∈ ops, validOp op) : StateInv (ops.foldl applyOp db) := by
  induction ops generalizing db with
  | nil => exact hinv
  | cons op rest ih =>
    exact ih (applyOp db op)
      (stateInv_applyOp db op hinv (hval op (List.mem_cons_self op rest)))
      (fun o ho => hval o (List.mem_cons_of_mem op ho))

/-- Claim C1: from the empty database, after any sequence of register,
postMovement (with valid direction and positive quantity), getBalance and
listProducts calls, every saldo row equals the signed sum of the movement
log of its SKU, and is non-negative. -/
theorem c1_saldo_consistente (ops : List Op)
    (hval : ∀ op ∈ ops, validOp op) : balanceInvariant (applyOps ops) := by
  have hempty : StateInv emptyDB := by
    refine ⟨?_, ?_, ?_⟩ <;> intro x hx <;> simp [emptyDB] at hx
  exact (stateInv_foldl ops emptyDB hempty hval).1

/-- Scenarios 1-4 of the spec as one run: register A1, inbound 10,
outbound 7, rejected outbound 50; the final balance 3 equals the signed
movement sum and is non-negative. -/
theorem c1_saldo_consistente_witness :
    (∀ op ∈ [Op.register ⟨"A1", "Parafuso", 5, 100, 2.0⟩ 1 true,
             Op.postMovement ⟨"A1", "E", 10⟩ 2 true,
             Op.postMovement ⟨"A1", "S", 7⟩ 3 true,
             Op.postMovement ⟨"A1", "S", 50⟩ 4 true,
             Op.getBalance "A1", Op.listProducts], validOp op) ∧
    balanceInvariant (applyOps
        [Op.register ⟨"A1", "Parafuso", 5, 100, 2.0⟩ 1 true,
         Op.postMovement ⟨"A1", "E", 10⟩ 2 true,
         Op.postMovement ⟨"A1", "S", 7⟩ 3 true,
         Op.postMovement ⟨"A1", "S", 50⟩ 4 true,
         Op.getBalance "A1", Op.listProducts]) :=
  ⟨by decide,
    c1_saldo_consistente
      [Op.register ⟨"A1", "Parafuso", 5, 100, 2.0⟩ 1 true,
       Op.postMovement ⟨"A1", "E", 10⟩ 2 true,
       Op.postMovement ⟨"A1", "S", 7⟩ 3 true,
       Op.postMovement ⟨"A1", "S", 50⟩ 4 true,
       Op.getBalance "A1", Op.listProducts] (by decide)⟩

/-! ### C2: two concurrent outbound movements against the same SKU

lancar_movimentacao is embedded a second time as a small-step thread so
that arbitrary interleavings can be examined.  A thread walks through the
phases of the endpoint: validation and locked read (the SELECT FOR UPDATE
acquires the row lock; an abort inside this step releases it again via the
rollback), the write phase (movement insert plus balance update, performed
while the lock is held, reusing registrarMovEAtualizarSaldo), the commit
(which releases the row lock), and the post-commit advisory alert read.
A thread whose SELECT FOR UPDATE finds the row lock held by the other
thread blocks: its step leaves the configuration unchanged. -/

instance {ε α : Type} [DecidableEq ε] [DecidableEq α] :
    DecidableEq (Except ε α) := fun a b =>
  match a, b with
  | .ok x, .ok y =>
    if h : x = y then isTrue (congrArg Except.ok h)
    else isFalse (fun he => h (Except.ok.inj he))
  | .error x, .error y =>
    if h : x = y then isTrue (congrArg Except.error h)
    else isFalse (fun he => h (Except.error.inj he))
  | .ok _, .error _ => isFalse (fun he => Except.noConfusion he)
  | .error _, .ok _ => isFalse (fun he => Except.noConfusion he)

/-- The phase a thread of lancar_movimentacao is in. -/
inductive ThreadState where
  | start
  | checked (novo_saldo : Int)
  | written (novo_saldo : Int)
  | committed (novo_saldo : Int)
  | done (res : Except HTTPException MovimentacaoResponse)
deriving DecidableEq

/-- The shared configuration: the database, the owner of the row lock of
each SKU, and the phase of each of the two threads. -/
structure ConcConfig where
  db : DBState
  lockOwner : String → Option Bool
  ts : Bool → ThreadState

/-- Replace the phase of one thread. -/
def setTs (c : ConcConfig) (who : Bool) (st : ThreadState) : ConcConfig :=
  { c with ts := fun w => if w = who then st else c.ts w }

/-- Replace the owner of one SKU row lock. -/
def setLock (c : ConcConfig) (sk : String) (owner : Option Bool) : ConcConfig :=
  { c with lockOwner := fun s => if s = sk then owner else c.lockOwner s }

@[simp] theorem db_setTs (c : ConcConfig) (who : Bool) (st : ThreadState) :
    (setTs c who st).db = c.db := rfl

@[simp] theorem lockOwner_setTs (c : ConcConfig) (who : Bool)
    (st : ThreadState) : (setTs c who st).lockOwner = c.lockOwner := rfl

@[simp] theorem ts_setTs (c : ConcConfig) (who : Bool) (st : ThreadState)
    (w : Bool) : (setTs c who st).ts w = if w = who then st else c.ts w := rfl

@[simp] theorem db_setLock (c : ConcConfig) (sk : String) (o : Option Bool) :
    (setLock c sk o).db = c.db := rfl

@[simp] theorem ts_setLock (c : ConcConfig) (sk : String) (o : Option Bool) :
    (setLock c sk o).ts = c.ts := rfl

@[simp] theorem lockOwner_setLock (c : ConcConfig) (sk : String)
    (o : Option Bool) (s : String) :
    (setLock c sk o).lockOwner s = if s = sk then o else c.lockOwner s := rfl

@[simp] theorem bnot_ne_self (i : Bool) : ¬((!i) = i) := by
  cases i <;> simp

@[simp] theorem ne_bnot_self (i : Bool) : ¬(i = !i) := by
  cases i <;> simp

/-- One step of the thread `who` running lancar_movimentacao for `mov`
with timestamp `now`: the phases of the endpoint, with the SELECT FOR
UPDATE blocking while the other thread owns the row lock. -/
def stepThread (who : Bool) (mov : MovimentacaoCreate) (now : Nat)
    (c : ConcConfig) : ConcConfig :=
  match c.ts who with
  | .start =>
    if mov.tipo_movimentacao ≠ "E" ∧ mov.tipo_movimentacao ≠ "S" then
      setTs c who (.done (.error tipoInvalido))
    else
      match c.lockOwner mov.sku_id with
      | some _ => c
      | none =>
        match findSaldo c.db.saldos mov.sku_id with
        | none => setTs c who (.done (.error skuSemSaldo))
        | some saldo_atual_row =>
          let saldo_atual := saldo_atual_row.saldo_atual
          if mov.tipo_movimentacao = "E" then
            setTs (setLock c mov.sku_id (some who)) who
              (.checked (saldo_atual + mov.quantidade))
          else if mov.quantidade > saldo_atual then
            setTs c who (.done (.error (estoqueInsuficiente saldo_atual)))
          else
            setTs (setLock c mov.sku_id (some who)) who
              (.checked (saldo_atual - mov.quantidade))
  | .checked novo_saldo =>
    { setTs c who (.written novo_saldo) with
        db := registrarMovEAtualizarSaldo mov now novo_saldo c.db }
  | .written novo_saldo =>
    setTs (setLock c mov.sku_id none) who (.committed novo_saldo)
  | .committed novo_saldo =>
    setTs c who (.done (.ok ⟨movMessage mov, mov.sku_id, novo_saldo,
      alertaMinimo mov novo_saldo c.db.produtos⟩))
  | .done _ => c

/-- The race of claim C2: an initial database whose saldo row for `sku` is
`r0`, and two outbound movements of quantities q1 (thread true) and q2
(thread false) with their commit timestamps. -/
structure Scenario where
  db0 : DBState
  sku : String
  r0 : Saldo
  q1 : Int
  q2 : Int
  now1 : Nat
  now2 : Nat

/-- Quantity posted by a thread. -/
def Scenario.q (sc : Scenario) (i : Bool) : Int := if i then sc.q1 else sc.q2

/-- Commit timestamp of a thread. -/
def Scenario.tnow (sc : Scenario) (i : Bool) : Nat :=
  if i then sc.now1 else sc.now2

/-- The outbound movement request of a thread. -/
def Scenario.mov (sc : Scenario) (i : Bool) : MovimentacaoCreate :=
  ⟨sc.sku, "S", sc.q i⟩

/-- The initial balance read under the lock by whichever thread is first. -/
def Scenario.b (sc : Scenario) : Int := sc.r0.saldo_atual

/-- The hypotheses of claim C2: the SKU is registered with balance row r0
and the two positive quantities jointly exceed the balance. -/
def Scenario.Wf (sc : Scenario) : Prop :=
  findSaldo sc.db0.saldos sc.sku = some sc.r0 ∧
  sc.b < sc.q1 + sc.q2 ∧ 0 < sc.q1 ∧ 0 < sc.q2

@[simp] theorem Scenario.mov_sku (sc : Scenario) (i : Bool) :
    (sc.mov i).sku_id = sc.sku := rfl

@[simp] theorem Scenario.mov_tipo (sc : Scenario) (i : Bool) :
    (sc.mov i).tipo_movimentacao = "S" := rfl

@[simp] theorem Scenario.mov_qty (sc : Scenario) (i : Bool) :
    (sc.mov i).quantidade = sc.q i := rfl

theorem Scenario.q_add (sc : Scenario) (i : Bool) :
    sc.q i + sc.q (!i) = sc.q1 + sc.q2 := by
  cases i with
  | false => simp [Scenario.q]; ring
  | true => simp [Scenario.q]

/-- Both threads at the beginning, no lock held. -/
def initConfig (db : DBState) : ConcConfig := ⟨db, fun _ => none, fun _ => .start⟩

/-- Let one thread of the scenario take its step. -/
def stepSched (sc : Scenario) (c : ConcConfig) (who : Bool) : ConcConfig :=
  stepThread who (sc.mov who) (sc.tnow who) c

/-- Run a schedule (the order in which the storage engine grants the two
threads their next step) from the initial configuration. -/
def runSched (sc : Scenario) (sched : List Bool) : ConcConfig :=
  sched.foldl (stepSched sc) (initConfig sc.db0)

/-- The database after the transaction of one thread committed against the
initial database. -/
def dbAfter (sc : Scenario) (i : Bool) : DBState :=
  registrarMovEAtualizarSaldo (sc.mov i) (sc.tnow i) (sc.b - sc.q i) sc.db0

/-- The successful response of a thread that read the initial balance. -/
def okRes (sc : Scenario) (i : Bool) : Except HTTPException MovimentacaoResponse :=
  .ok ⟨movMessage (sc.mov i), sc.sku, sc.b - sc.q i,
    alertaMinimo (sc.mov i) (sc.b - sc.q i) sc.db0.produtos⟩

/-- The insufficient-stock failure reporting the balance it observed. -/
def failRes (saldo_atual : Int) : Except HTTPException MovimentacaoResponse :=
  .error (estoqueInsuficiente saldo_atual)

/-- Did the call commit? -/
def sucesso (r : Except HTTPException MovimentacaoResponse) : Bool :=
  match r with
  | .ok _ => true
  | .error _ => false

/-! ### Step equations of the thread machine -/

theorem stepThread_done (who : Bool) (mov : MovimentacaoCreate) (now : Nat)
    (c : ConcConfig) (r : Except HTTPException MovimentacaoResponse)
    (h : c.ts who = .done r) : stepThread who mov now c = c := by
  simp [stepThread, h]

theorem stepThread_checked (who : Bool) (mov : MovimentacaoCreate)
    (now : Nat) (c : ConcConfig) (n : Int) (h : c.ts who = .checked n) :
    stepThread who mov now c =
      { setTs c who (.written n) with
          db := registrarMovEAtualizarSaldo mov now n c.db } := by
  simp [stepThread, h]

theorem stepThread_written (who : Bool) (mov : MovimentacaoCreate)
    (now : Nat) (c : ConcConfig) (n : Int) (h : c.ts who = .written n) :
    stepThread who mov now c =
      setTs (setLock c mov.sku_id none) who (.committed n) := by
  simp [stepThread, h]

theorem stepThread_committed (who : Bool) (mov : MovimentacaoCreate)
    (now : Nat) (c : ConcConfig) (n : Int) (h : c.ts who = .committed n) :
    stepThread who mov now c =
      setTs c who (.done (.ok ⟨movMessage mov, mov.sku_id, n,
        alertaMinimo mov n c.db.produtos⟩)) := by
  simp [stepThread, h]

theorem stepThread_start_blocked (who : Bool) (mov : MovimentacaoCreate)
    (now : Nat) (c : ConcConfig) (j : Bool) (h : c.ts who = .start)
    (hS : mov.tipo_movimentacao = "S")
    (hlk : c.lockOwner mov.sku_id = some j) :
    stepThread who mov now c = c := by
  simp [stepThread, h, hS, hlk]

theorem stepThread_start_saida (who : Bool) (mov : MovimentacaoCreate)
    (now : Nat) (c : ConcConfig) (r : Saldo) (h : c.ts who = .start)
    (hS : mov.tipo_movimentacao = "S")
    (hlk : c.lockOwner mov.sku_id = none)
    (hfind : findSaldo c.db.saldos mov.sku_id = some r) :
    stepThread who mov now c =
      if mov.quantidade > r.saldo_atual then
        setTs c who (.done (.error (estoqueInsuficiente r.saldo_atual)))
      else
        setTs (setLock c mov.sku_id (some who)) who
          (.checked (r.saldo_atual - mov.quantidade)) := by
  simp [stepThread, h, hS, hlk, hfind]

/-! ### The reachable configurations of the race -/

/-- The fields of a configuration, where `i` names the thread whose phase
is listed first. -/
def ShapeAt (sc : Scenario) (c : ConcConfig) (i : Bool) (dbv : DBState)
    (lk : Option Bool) (mine othr : ThreadState) : Prop :=
  c.db = dbv ∧ c.lockOwner sc.sku = lk ∧ c.ts i = mine ∧ c.ts (!i) = othr

/-- The invariant of the race: every reachable configuration is in one of
these shapes.  Thread `i` is the thread that entered the lock region (or
finished) first; the second thread to read always sees the first thread's
committed balance. -/
def Reach (sc : Scenario) (c : ConcConfig) : Prop :=
  ShapeAt sc c true sc.db0 none .start .start ∨
  ∃ i : Bool,
    (sc.q i ≤ sc.b ∧
      ShapeAt sc c i sc.db0 (some i) (.checked (sc.b - sc.q i)) .start) ∨
    (sc.q i ≤ sc.b ∧
      ShapeAt sc c i (dbAfter sc i) (some i) (.written (sc.b - sc.q i)) .start) ∨
    (sc.q i ≤ sc.b ∧
      ShapeAt sc c i (dbAfter sc i) none (.committed (sc.b - sc.q i)) .start) ∨
    (sc.q i ≤ sc.b ∧
      ShapeAt sc c i (dbAfter sc i) none (.done (okRes sc i)) .start) ∨
    (sc.b < sc.q i ∧
      ShapeAt sc c i sc.db0 none (.done (failRes sc.b)) .start) ∨
    (sc.q i ≤ sc.b ∧
      ShapeAt sc c i (dbAfter sc i) none (.committed (sc.b - sc.q i))
        (.done (failRes (sc.b - sc.q i)))) ∨
    (sc.q i ≤ sc.b ∧
      ShapeAt sc c i (dbAfter sc i) none (.done (okRes sc i))
        (.done (failRes (sc.b - sc.q i)))) ∨
    (sc.b < sc.q i ∧ sc.q (!i) ≤ sc.b ∧
      ShapeAt sc c i sc.db0 (some (!i)) (.done (failRes sc.b))
        (.checked (sc.b - sc.q (!i)))) ∨
    (sc.b < sc.q i ∧ sc.q (!i) ≤ sc.b ∧
      ShapeAt sc c i (dbAfter sc (!i)) (some (!i)) (.done (failRes sc.b))
        (.written (sc.b - sc.q (!i)))) ∨
    (sc.b < sc.q i ∧ sc.q (!i) ≤ sc.b ∧
      ShapeAt sc c i (dbAfter sc (!i)) none (.done (failRes sc.b))
        (.committed (sc.b - sc.q (!i)))) ∨
    (sc.b < sc.q i ∧ sc.q (!i) ≤ sc.b ∧
      ShapeAt sc c i (dbAfter sc (!i)) none (.done (failRes sc.b))
        (.done (okRes sc (!i)))) ∨
    (sc.b < sc.q i ∧ sc.b < sc.q (!i) ∧
      ShapeAt sc c i sc.db0 none (.done (failRes sc.b)) (.done (failRes sc.b)))

theorem reach_d1 (sc : Scenario) (c : ConcConfig) (i : Bool)
    (h : sc.q i ≤ sc.b ∧
      ShapeAt sc c i sc.db0 (some i) (.checked (sc.b - sc.q i)) .start) :
    Reach sc c := Or.inr ⟨i, Or.inl h⟩

theorem reach_d2 (sc : Scenario) (c : ConcConfig) (i : Bool)
    (h : sc.q i ≤ sc.b ∧
      ShapeAt sc c i (dbAfter sc i) (some i) (.written (sc.b - sc.q i)) .start) :
    Reach sc c := Or.inr ⟨i, Or.inr (Or.inl h)⟩

theorem reach_d3 (sc : Scenario) (c : ConcConfig) (i : Bool)
    (h : sc.q i ≤ sc.b ∧
      ShapeAt sc c i (dbAfter sc i) none (.committed (sc.b - sc.q i)) .start) :
    Reach sc c := Or.inr ⟨i, Or.inr (Or.inr (Or.inl h))⟩

theorem reach_d4 (sc : Scenario) (c : ConcConfig) (i : Bool)
    (h : sc.q i ≤ sc.b ∧
      ShapeAt sc c i (dbAfter sc i) none (.done (okRes sc i)) .start) :
    Reach sc c := Or.inr ⟨i, Or.inr (Or.inr (Or.inr (Or.inl h)))⟩

theorem reach_d5 (sc : Scenario) (c : ConcConfig) (i : Bool)
    (h : sc.b < sc.q i ∧
      ShapeAt sc c i sc.db0 none (.done (failRes sc.b)) .start) :
    Reach sc c := Or.inr ⟨i, Or.inr (Or.inr (Or.inr (Or.inr (Or.inl h))))⟩

theorem reach_d6 (sc : Scenario) (c : ConcConfig) (i : Bool)
    (h : sc.q i ≤ sc.b ∧
      ShapeAt sc c i (dbAfter sc i) none (.committed (sc.b - sc.q i))
        (.done (failRes (sc.b - sc.q i)))) :
    Reach sc c := Or.inr ⟨i, Or.inr (Or.inr (Or.inr (Or.inr (Or.inr (Or.inl h)))))⟩

theorem reach_d7 (sc : Scenario) (c : ConcConfig) (i : Bool)
    (h : sc.q i ≤ sc.b ∧
      ShapeAt sc c i (dbAfter sc i) none (.done (okRes sc i))
        (.done (failRes (sc.b - sc.q i)))) :
    Reach sc c :=
  Or.inr ⟨i, Or.inr (Or.inr (Or.inr (Or.inr (Or.inr (Or.inr (Or.inl h))))))⟩

theorem reach_d8 (sc : Scenario) (c : ConcConfig) (i : Bool)
    (h : sc.b < sc.q i ∧ sc.q (!i) ≤ sc.b ∧
      ShapeAt sc c i sc.db0 (some (!i)) (.done (failRes sc.b))
        (.checked (sc.b - sc.q (!i)))) :
    Reach sc c :=
  Or.inr ⟨i, Or.inr (Or.inr (Or.inr (Or.inr (Or.inr (Or.inr (Or.inr (Or.inl h)))))))⟩

theorem reach_d9 (sc : Scenario) (c : ConcConfig) (i : Bool)
    (h : sc.b < sc.q i ∧ sc.q (!i) ≤ sc.b ∧
      ShapeAt sc c i (dbAfter sc (!i)) (some (!i)) (.done (failRes sc.b))
        (.written (sc.b - sc.q (!i)))) :
    Reach sc c :=
  Or.inr ⟨i, Or.inr (Or.inr (Or.inr (Or.inr (Or.inr (Or.inr (Or.inr
    (Or.inr (Or.inl h))))))))⟩

theorem reach_d10 (sc : Scenario) (c : ConcConfig) (i : Bool)
    (h : sc.b < sc.q i ∧ sc.q (!i) ≤ sc.b ∧
      ShapeAt sc c i (dbAfter sc (!i)) none (.done (failRes sc.b))
        (.committed (sc.b - sc.q (!i)))) :
    Reach sc c :=
  Or.inr ⟨i, Or.inr (Or.inr (Or.inr (Or.inr (Or.inr (Or.inr (Or.inr
    (Or.inr (Or.inr (Or.inl h)))))))))⟩

theorem reach_d11 (sc : Scenario) (c : ConcConfig) (i : Bool)
    (h : sc.b < sc.q i ∧ sc.q (!i) ≤ sc.b ∧
      ShapeAt sc c i (dbAfter sc (!i)) none (.done (failRes sc.b))
        (.done (okRes sc (!i)))) :
    Reach sc c :=
  Or.inr ⟨i, Or.inr (Or.inr (Or.inr (Or.inr (Or.inr (Or.inr (Or.inr
    (Or.inr (Or.inr (Or.inr (Or.inl h))))))))))⟩

theorem reach_d12 (sc : Scenario) (c : ConcConfig) (i : Bool)
    (h : sc.b < sc.q i ∧ sc.b < sc.q (!i) ∧
      ShapeAt sc c i sc.db0 none (.done (failRes sc.b)) (.done (failRes sc.b))) :
    Reach sc c :=
  Or.inr ⟨i, Or.inr (Or.inr (Or.inr (Or.inr (Or.inr (Or.inr (Or.inr
    (Or.inr (Or.inr (Or.inr (Or.inr h))))))))))⟩

theorem stepSched_eq (sc : Scenario) (c : ConcConfig) (w : Bool) :
    stepSched sc c w = stepThread w (sc.mov w) (sc.tnow w) c := rfl

/-- Balance lookup after one thread committed: the same row, rewritten. -/
theorem findSaldo_dbAfter (sc : Scenario)
    (hfind0 : findSaldo sc.db0.saldos sc.sku = some sc.r0) (i : Bool) :
    findSaldo (dbAfter sc i).saldos sc.sku =
      some ⟨sc.r0.sku_id, sc.b - sc.q i, sc.tnow i⟩ := by
  have hr0 : sc.r0.sku_id = sc.sku := by
    have h := List.find?_some hfind0
    simpa [findSaldo] using h
  unfold dbAfter
  rw [findSaldo_registrar, hfind0]
  simp [hr0]

/-- Every step of either thread stays inside the reachable shapes. -/
theorem reach_step (sc : Scenario) (hwf : sc.Wf) (c : ConcConfig) (w : Bool)
    (hc : Reach sc c) : Reach sc (stepSched sc c w) := by
  obtain ⟨hfind0, hq12, hq1G, hq2G⟩ := hwf
  have hsecond : ∀ j : Bool, sc.b - sc.q j < sc.q (!j) := by
    intro j
    have h := sc.q_add j
    omega
  rcases hc with h0 | ⟨i, h1 | h2 | h3 | h4 | h5 | h6 | h7 | h8 | h9 | h10 | h11 | h12⟩
  · -- both threads at start
    obtain ⟨hdb, hlk, hts1, hts2⟩ := h0
    have htsw : c.ts w = .start := by cases w; exacts [hts2, hts1]
    have htso : c.ts (!w) = .start := by cases w; exacts [hts1, hts2]
    have hfc : findSaldo c.db.saldos (sc.mov w).sku_id = some sc.r0 := by
      rw [show (sc.mov w).sku_id = sc.sku from rfl, hdb]; exact hfind0
    rw [stepSched_eq,
      stepThread_start_saida w (sc.mov w) (sc.tnow w) c sc.r0 htsw rfl hlk hfc]
    by_cases hgt : (sc.mov w).quantidade > sc.r0.saldo_atual
    · rw [if_pos hgt]
      refine reach_d5 sc _ w ⟨hgt, by simpa using hdb, by simpa using hlk,
        by simp [failRes, Scenario.b], by simp [htso]⟩
    · rw [if_neg hgt]
      refine reach_d1 sc _ w ⟨le_of_not_lt hgt, by simpa using hdb, by simp,
        by simp [Scenario.b], by simp [htso]⟩
  · -- first thread holds the lock with its balance checked
    obtain ⟨hqle, hdb, hlk, htsi, htso⟩ := h1
    by_cases hw : w = i
    · rw [hw, stepSched_eq,
        stepThread_checked i (sc.mov i) (sc.tnow i) c _ htsi]
      exact reach_d2 sc _ i ⟨hqle, by simp [hdb, dbAfter], by simpa using hlk,
        by simp, by simp [htso]⟩
    · have hw' : w = !i := by cases w <;> cases i <;> simp_all
      rw [hw', stepSched_eq,
        stepThread_start_blocked (!i) (sc.mov (!i)) (sc.tnow (!i)) c i htso rfl hlk]
      exact reach_d1 sc c i ⟨hqle, hdb, hlk, htsi, htso⟩
  · -- first thread has written, still holding the lock
    obtain ⟨hqle, hdb, hlk, htsi, htso⟩ := h2
    by_cases hw : w = i
    · rw [hw, stepSched_eq,
        stepThread_written i (sc.mov i) (sc.tnow i) c _ htsi]
      exact reach_d3 sc _ i ⟨hqle, by simpa using hdb, by simp, by simp,
        by simp [htso]⟩
    · have hw' : w = !i := by cases w <;> cases i <;> simp_all
      rw [hw', stepSched_eq,
        stepThread_start_blocked (!i) (sc.mov (!i)) (sc.tnow (!i)) c i htso rfl hlk]
      exact reach_d2 sc c i ⟨hqle, hdb, hlk, htsi, htso⟩
  · -- first thread committed (lock free), second not yet started
    obtain ⟨hqle, hdb, hlk, htsi, htso⟩ := h3
    by_cases hw : w = i
    · rw [hw, stepSched_eq,
        stepThread_committed i (sc.mov i) (sc.tnow i) c _ htsi]
      exact reach_d4 sc _ i ⟨hqle, by simpa using hdb, by simpa using hlk,
        by simp [okRes, hdb, dbAfter], by simp [htso]⟩
    · have hw' : w = !i := by cases w <;> cases i <;> simp_all
      have hfc : findSaldo c.db.saldos (sc.mov (!i)).sku_id =
          some ⟨sc.r0.sku_id, sc.b - sc.q i, sc.tnow i⟩ := by
        rw [show (sc.mov (!i)).sku_id = sc.sku from rfl, hdb]
        exact findSaldo_dbAfter sc hfind0 i
      rw [hw', stepSched_eq,
        stepThread_start_saida (!i) (sc.mov (!i)) (sc.tnow (!i)) c _ htso rfl hlk hfc,
        if_pos (show (sc.mov (!i)).quantidade >
          ((⟨sc.r0.sku_id, sc.b - sc.q i, sc.tnow i⟩ : Saldo)).saldo_atual
          from hsecond i)]
      exact reach_d6 sc _ i ⟨hqle, by simpa using hdb, by simpa using hlk,
        by simp [htsi], by simp [failRes]⟩
  · -- first thread fully done with success, second not yet started
    obtain ⟨hqle, hdb, hlk, htsi, htso⟩ := h4
    by_cases hw : w = i
    · rw [hw, stepSched_eq, stepThread_done i (sc.mov i) (sc.tnow i) c _ htsi]
      exact reach_d4 sc c i ⟨hqle, hdb, hlk, htsi, htso⟩
    · have hw' : w = !i := by cases w <;> cases i <;> simp_all
      have hfc : findSaldo c.db.saldos (sc.mov (!i)).sku_id =
          some ⟨sc.r0.sku_id, sc.b - sc.q i, sc.tnow i⟩ := by
        rw [show (sc.mov (!i)).sku_id = sc.sku from rfl, hdb]
        exact findSaldo_dbAfter sc hfind0 i
      rw [hw', stepSched_eq,
        stepThread_start_saida (!i) (sc.mov (!i)) (sc.tnow (!i)) c _ htso rfl hlk hfc,
        if_pos (show (sc.mov (!i)).quantidade >
          ((⟨sc.r0.sku_id, sc.b - sc.q i, sc.tnow i⟩ : Saldo)).saldo_atual
          from hsecond i)]
      exact reach_d7 sc _ i ⟨hqle, by simpa using hdb, by simpa using hlk,
        by simp [htsi], by simp [failRes]⟩
  · -- first thread failed at once, second not yet started
    obtain ⟨hlt, hdb, hlk, htsi, htso⟩ := h5
    by_cases hw : w = i
    · rw [hw, stepSched_eq, stepThread_done i (sc.mov i) (sc.tnow i) c _ htsi]
      exact reach_d5 sc c i ⟨hlt, hdb, hlk, htsi, htso⟩
    · have hw' : w = !i := by cases w <;> cases i <;> simp_all
      have hfc : findSaldo c.db.saldos (sc.mov (!i)).sku_id = some sc.r0 := by
        rw [show (sc.mov (!i)).sku_id = sc.sku from rfl, hdb]; exact hfind0
      rw [hw', stepSched_eq,
        stepThread_start_saida (!i) (sc.mov (!i)) (sc.tnow (!i)) c sc.r0 htso rfl hlk hfc]
      by_cases hgt : (sc.mov (!i)).quantidade > sc.r0.saldo_atual
      · rw [if_pos hgt]
        exact reach_d12 sc _ i ⟨hlt, hgt, by simpa using hdb, by simpa using hlk,
          by simp [htsi], by simp [failRes, Scenario.b]⟩
      · rw [if_neg hgt]
        exact reach_d8 sc _ i ⟨hlt, le_of_not_lt hgt, by simpa using hdb,
          by simp, by simp [htsi], by simp [Scenario.b]⟩
  · -- first committed, second already refused
    obtain ⟨hqle, hdb, hlk, htsi, htso⟩ := h6
    by_cases hw : w = i
    · rw [hw, stepSched_eq,
        stepThread_committed i (sc.mov i) (sc.tnow i) c _ htsi]
      exact reach_d7 sc _ i ⟨hqle, by simpa using hdb, by simpa using hlk,
        by simp [okRes, hdb, dbAfter], by simp [htso]⟩
    · have hw' : w = !i := by cases w <;> cases i <;> simp_all
      rw [hw', stepSched_eq, stepThread_done (!i) (sc.mov (!i)) (sc.tnow (!i)) c _ htso]
      exact reach_d6 sc c i ⟨hqle, hdb, hlk, htsi, htso⟩
  · -- success and refusal both fully done
    obtain ⟨hqle, hdb, hlk, htsi, htso⟩ := h7
    by_cases hw : w = i
    · rw [hw, stepSched_eq, stepThread_done i (sc.mov i) (sc.tnow i) c _ htsi]
      exact reach_d7 sc c i ⟨hqle, hdb, hlk, htsi, htso⟩
    · have hw' : w = !i := by cases w <;> cases i <;> simp_all
      rw [hw', stepSched_eq, stepThread_done (!i) (sc.mov (!i)) (sc.tnow (!i)) c _ htso]
      exact reach_d7 sc c i ⟨hqle, hdb, hlk, htsi, htso⟩
  · -- first refused, second holds the lock with its balance checked
    obtain ⟨hlt, hqle, hdb, hlk, htsi, htso⟩ := h8
    by_cases hw : w = i
    · rw [hw, stepSched_eq, stepThread_done i (sc.mov i) (sc.tnow i) c _ htsi]
      exact reach_d8 sc c i ⟨hlt, hqle, hdb, hlk, htsi, htso⟩
    · have hw' : w = !i := by cases w <;> cases i <;> simp_all
      rw [hw', stepSched_eq,
        stepThread_checked (!i) (sc.mov (!i)) (sc.tnow (!i)) c _ htso]
      exact reach_d9 sc _ i ⟨hlt, hqle, by simp [hdb, dbAfter], by simpa using hlk,
        by simp [htsi], by simp⟩
  · -- first refused, second has written
    obtain ⟨hlt, hqle, hdb, hlk, htsi, htso⟩ := h9
    by_cases hw : w = i
    · rw [hw, stepSched_eq, stepThread_done i (sc.mov i) (sc.tnow i) c _ htsi]
      exact reach_d9 sc c i ⟨hlt, hqle, hdb, hlk, htsi, htso⟩
    · have hw' : w = !i := by cases w <;> cases i <;> simp_all
      rw [hw', stepSched_eq,
        stepThread_written (!i) (sc.mov (!i)) (sc.tnow (!i)) c _ htso]
      exact reach_d10 sc _ i ⟨hlt, hqle, by simpa using hdb, by simp,
        by simp [htsi], by simp⟩
  · -- first refused, second committed
    obtain ⟨hlt, hqle, hdb, hlk, htsi, htso⟩ := h10
    by_cases hw : w = i
    · rw [hw, stepSched_eq, stepThread_done i (sc.mov i) (sc.tnow i) c _ htsi]
      exact reach_d10 sc c i ⟨hlt, hqle, hdb, hlk, htsi, htso⟩
    · have hw' : w = !i := by cases w <;> cases i <;> simp_all
      rw [hw', stepSched_eq,
        stepThread_committed (!i) (sc.mov (!i)) (sc.tnow (!i)) c _ htso]
      exact reach_d11 sc _ i ⟨hlt, hqle, by simpa using hdb, by simpa using hlk,
        by simp [htsi], by simp [okRes, hdb, dbAfter]⟩
  · -- refusal and success both fully done
    obtain ⟨hlt, hqle, hdb, hlk, htsi, htso⟩ := h11
    by_cases hw : w = i
    · rw [hw, stepSched_eq, stepThread_done i (sc.mov i) (sc.tnow i) c _ htsi]
      exact reach_d11 sc c i ⟨hlt, hqle, hdb, hlk, htsi, htso⟩
    · have hw' : w = !i := by cases w <;> cases i <;> simp_all
      rw [hw', stepSched_eq, stepThread_done (!i) (sc.mov (!i)) (sc.tnow (!i)) c _ htso]
      exact reach_d11 sc c i ⟨hlt, hqle, hdb, hlk, htsi, htso⟩
  · -- both refused
    obtain ⟨hlt1, hlt2, hdb, hlk, htsi, htso⟩ := h12
    by_cases hw : w = i
    · rw [hw, stepSched_eq, stepThread_done i (sc.mov i) (sc.tnow i) c _ htsi]
      exact reach_d12 sc c i ⟨hlt1, hlt2, hdb, hlk, htsi, htso⟩
    · have hw' : w = !i := by cases w <;> cases i <;> simp_all
      rw [hw', stepSched_eq, stepThread_done (!i) (sc.mov (!i)) (sc.tnow (!i)) c _ htso]
      exact reach_d12 sc c i ⟨hlt1, hlt2, hdb, hlk, htsi, htso⟩

/-- Any schedule leads to a reachable configuration. -/
theorem reach_run (sc : Scenario) (hwf : sc.Wf) (sched : List Bool) :
    Reach sc (runSched sc sched) := by
  have haux : ∀ (l : List Bool) (c : ConcConfig), Reach sc c →
      Reach sc (l.foldl (stepSched sc) c) := by
    intro l
    induction l with
    | nil => intro c hc; exact hc
    | cons w rest ih =>
      intro c hc
      exact ih (stepSched sc c w) (reach_step sc hwf c w hc)
  refine haux sched (initConfig sc.db0) ?_
  exact Or.inl ⟨rfl, rfl, rfl, rfl⟩

@[simp] theorem sucesso_okRes (sc : Scenario) (i : Bool) :
    sucesso (okRes sc i) = true := rfl

@[simp] theorem sucesso_failRes (x : Int) : sucesso (failRes x) = false := rfl

/-- Claim C2 (amended): for two concurrent outbound movements q1, q2 on the
same SKU with q1 + q2 above the current balance b, under every schedule in
which both calls complete: never do both succeed; exactly one succeeds iff
at least one quantity alone fits the balance (when each quantity alone
exceeds b, both calls fail with InsufficientStock); the winner is the
thread that acquired the row lock first, the loser fails with
InsufficientStock reporting the balance it observed; the final balance is
b minus the succeeding quantity (b if both fail), and is never negative.
(The original claim asserted that exactly one call always succeeds; the
counterexample refutes that when both quantities exceed the balance.) -/
theorem c2_saida_concorrente (sc : Scenario) (hwf : sc.Wf)
    (sched : List Bool) (r1 r2 : Except HTTPException MovimentacaoResponse)
    (h1 : (runSched sc sched).ts true = .done r1)
    (h2 : (runSched sc sched).ts false = .done r2) :
    ¬(sucesso r1 = true ∧ sucesso r2 = true) ∧
    ((sucesso r1 = true ∨ sucesso r2 = true) ↔ (sc.q1 ≤ sc.b ∨ sc.q2 ≤ sc.b)) ∧
    (sucesso r1 = true → r1 = okRes sc true ∧ sucesso r2 = false ∧
      (r2 = failRes (sc.b - sc.q1) ∨ r2 = failRes sc.b) ∧
      (runSched sc sched).db = dbAfter sc true) ∧
    (sucesso r2 = true → r2 = okRes sc false ∧ sucesso r1 = false ∧
      (r1 = failRes (sc.b - sc.q2) ∨ r1 = failRes sc.b) ∧
      (runSched sc sched).db = dbAfter sc false) ∧
    (sucesso r1 = false ∧ sucesso r2 = false →
      r1 = failRes sc.b ∧ r2 = failRes sc.b ∧ sc.b < sc.q1 ∧ sc.b < sc.q2 ∧
      (runSched sc sched).db = sc.db0) ∧
    (∀ s : Saldo, findSaldo (runSched sc sched).db.saldos sc.sku = some s →
      s.saldo_atual = sc.b - (if sucesso r1 = true then sc.q1 else 0) -
        (if sucesso r2 = true then sc.q2 else 0) ∧
      (0 ≤ sc.b → 0 ≤ s.saldo_atual)) := by
  have hdone : ∀ j : Bool, ∃ r, (runSched sc sched).ts j = .done r := by
    intro j
    cases j
    exacts [⟨r2, h2⟩, ⟨r1, h1⟩]
  have hreach := reach_run sc hwf sched
  rcases hreach with h0 |
    ⟨i, hA | hB | hC | hD | hE | hF | hG | hH | hI | hJ | hK | hL⟩
  · obtain ⟨_, _, hts, _⟩ := h0
    obtain ⟨r, hr⟩ := hdone true
    rw [hr] at hts
    exact absurd hts (by simp)
  · obtain ⟨_, _, _, hti, _⟩ := hA
    obtain ⟨r, hr⟩ := hdone i
    rw [hr] at hti
    exact absurd hti (by simp)
  · obtain ⟨_, _, _, hti, _⟩ := hB
    obtain ⟨r, hr⟩ := hdone i
    rw [hr] at hti
    exact absurd hti (by simp)
  · obtain ⟨_, _, _, hti, _⟩ := hC
    obtain ⟨r, hr⟩ := hdone i
    rw [hr] at hti
    exact absurd hti (by simp)
  · obtain ⟨_, _, _, _, hto⟩ := hD
    obtain ⟨r, hr⟩ := hdone (!i)
    rw [hr] at hto
    exact absurd hto (by simp)
  · obtain ⟨_, _, _, _, hto⟩ := hE
    obtain ⟨r, hr⟩ := hdone (!i)
    rw [hr] at hto
    exact absurd hto (by simp)
  · obtain ⟨_, _, _, hti, _⟩ := hF
    obtain ⟨r, hr⟩ := hdone i
    rw [hr] at hti
    exact absurd hti (by simp)
  · -- the lock winner succeeded, the loser observed the committed balance
    obtain ⟨hqle, hdb, _, hti, hto⟩ := hG
    cases i with
    | true =>
      have hq1b : sc.q1 ≤ sc.b := hqle
      have hr1 : r1 = okRes sc true := ThreadState.done.inj (h1.symm.trans hti)
      have hr2 : r2 = failRes (sc.b - sc.q1) :=
        ThreadState.done.inj (h2.symm.trans hto)
      subst hr1; subst hr2
      have hdb' : (runSched sc sched).db = dbAfter sc true := hdb
      refine ⟨by simp, ⟨fun _ => Or.inl hq1b, fun _ => Or.inl (by simp)⟩,
        fun _ => ⟨rfl, by simp, Or.inl rfl, hdb'⟩,
        fun hcon => absurd hcon (by simp),
        fun hcon => absurd hcon.1 (by simp), ?_⟩
      intro s hs
      rw [hdb', findSaldo_dbAfter sc hwf.1 true] at hs
      obtain rfl := (Option.some.inj hs).symm
      constructor
      · simp [Scenario.q]
      · intro hb
        have : sc.q true = sc.q1 := rfl
        simp only [this]
        omega
    | false =>
      have hq2b : sc.q2 ≤ sc.b := hqle
      have hr2 : r2 = okRes sc false := ThreadState.done.inj (h2.symm.trans hti)
      have hr1 : r1 = failRes (sc.b - sc.q2) :=
        ThreadState.done.inj (h1.symm.trans hto)
      subst hr1; subst hr2
      have hdb' : (runSched sc sched).db = dbAfter sc false := hdb
      refine ⟨by simp, ⟨fun _ => Or.inr hq2b, fun _ => Or.inr (by simp)⟩,
        fun hcon => absurd hcon (by simp),
        fun _ => ⟨rfl, by simp, Or.inl rfl, hdb'⟩,
        fun hcon => absurd hcon.2 (by simp), ?_⟩
      intro s hs
      rw [hdb', findSaldo_dbAfter sc hwf.1 false] at hs
      obtain rfl := (Option.some.inj hs).symm
      constructor
      · simp [Scenario.q]
      · intro hb
        have : sc.q false = sc.q2 := rfl
        simp only [this]
        omega
  · obtain ⟨_, _, _, _, _, hto⟩ := hH
    obtain ⟨r, hr⟩ := hdone (!i)
    rw [hr] at hto
    exact absurd hto (by simp)
  · obtain ⟨_, _, _, _, _, hto⟩ := hI
    obtain ⟨r, hr⟩ := hdone (!i)
    rw [hr] at hto
    exact absurd hto (by simp)
  · obtain ⟨_, _, _, _, _, hto⟩ := hJ
    obtain ⟨r, hr⟩ := hdone (!i)
    rw [hr] at hto
    exact absurd hto (by simp)
  · -- the lock winner failed at once, the other thread then succeeded
    obtain ⟨hlt, hqle, hdb, _, hti, hto⟩ := hK
    cases i with
    | true =>
      have hb1 : sc.b < sc.q1 := hlt
      have hq2b : sc.q2 ≤ sc.b := hqle
      have hr1 : r1 = failRes sc.b := ThreadState.done.inj (h1.symm.trans hti)
      have hr2 : r2 = okRes sc false := ThreadState.done.inj (h2.symm.trans hto)
      subst hr1; subst hr2
      have hdb' : (runSched sc sched).db = dbAfter sc false := hdb
      refine ⟨by simp, ⟨fun _ => Or.inr hq2b, fun _ => Or.inr (by simp)⟩,
        fun hcon => absurd hcon (by simp),
        fun _ => ⟨rfl, by simp, Or.inr rfl, hdb'⟩,
        fun hcon => absurd hcon.2 (by simp), ?_⟩
      intro s hs
      rw [hdb', findSaldo_dbAfter sc hwf.1 false] at hs
      obtain rfl := (Option.some.inj hs).symm
      constructor
      · simp [Scenario.q]
      · intro hb
        have : sc.q false = sc.q2 := rfl
        simp only [this]
        omega
    | false =>
      have hb2 : sc.b < sc.q2 := hlt
      have hq1b : sc.q1 ≤ sc.b := hqle
      have hr2 : r2 = failRes sc.b := ThreadState.done.inj (h2.symm.trans hti)
      have hr1 : r1 = okRes sc true := ThreadState.done.inj (h1.symm.trans hto)
      subst hr1; subst hr2
      have hdb' : (runSched sc sched).db = dbAfter sc true := hdb
      refine ⟨by simp, ⟨fun _ => Or.inl hq1b, fun _ => Or.inl (by simp)⟩,
        fun _ => ⟨rfl, by simp, Or.inr rfl, hdb'⟩,
        fun hcon => absurd hcon (by simp),
        fun hcon => absurd hcon.1 (by simp), ?_⟩
      intro s hs
      rw [hdb', findSaldo_dbAfter sc hwf.1 true] at hs
      obtain rfl := (Option.some.inj hs).symm
      constructor
      · simp [Scenario.q]
      · intro hb
        have : sc.q true = sc.q1 := rfl
        simp only [this]
        omega
  · -- each quantity alone exceeds the balance: both calls failed
    obtain ⟨hlt1, hlt2, hdb, _, hti, hto⟩ := hL
    have hb1 : sc.b < sc.q1 ∧ sc.b < sc.q2 := by
      cases i
      exacts [⟨hlt2, hlt1⟩, ⟨hlt1, hlt2⟩]
    have hr1 : r1 = failRes sc.b := by
      cases i
      exacts [ThreadState.done.inj (h1.symm.trans hto),
        ThreadState.done.inj (h1.symm.trans hti)]
    have hr2 : r2 = failRes sc.b := by
      cases i
      exacts [ThreadState.done.inj (h2.symm.trans hti),
        ThreadState.done.inj (h2.symm.trans hto)]
    subst hr1; subst hr2
    have hdb' : (runSched sc sched).db = sc.db0 := hdb
    refine ⟨by simp, ⟨fun h => by simp at h, fun h => ?_⟩,
      fun hcon => absurd hcon (by simp),
      fun hcon => absurd hcon (by simp),
      fun _ => ⟨rfl, rfl, hb1.1, hb1.2, hdb'⟩, ?_⟩
    · exfalso
      rcases h with h | h
      · omega
      · omega
    · intro s hs
      rw [hdb', hwf.1] at hs
      obtain rfl := (Option.some.inj hs).symm
      constructor
      · simp [Scenario.b]
      · intro hb
        simpa [Scenario.b] using hb

/-- The race of scenario 4 taken twice: balance 3, both withdrawals 50. -/
def scContra : Scenario :=
  ⟨⟨[], [⟨"A1", 3, 0⟩], [], 1⟩, "A1", ⟨"A1", 3, 0⟩, 50, 50, 7, 8⟩

/-- Counterexample to claim C2 as stated: with balance 3 and two
concurrent outbound movements of 50 each (50 + 50 > 3), both calls
complete and BOTH fail with InsufficientStock — it is not the case that
exactly one succeeds.  The balance stays 3. -/
theorem c2_counterexample :
    scContra.r0.saldo_atual < scContra.q1 + scContra.q2 ∧
    (runSched scContra [true, false]).ts true = .done (failRes 3) ∧
    (runSched scContra [true, false]).ts false = .done (failRes 3) ∧
    sucesso (failRes 3) = false ∧
    (runSched scContra [true, false]).db.saldos = scContra.db0.saldos :=
  ⟨by decide, rfl, rfl, rfl, rfl⟩

/-- The race with balance 10, withdrawals 7 and 6, thread true scheduled
through its whole transaction first. -/
def scTeste : Scenario :=
  ⟨⟨[], [⟨"A1", 10, 0⟩], [], 1⟩, "A1", ⟨"A1", 10, 0⟩, 7, 6, 4, 5⟩

theorem c2_saida_concorrente_witness :
    scTeste.Wf ∧
    (runSched scTeste [true, true, true, true, false]).ts true =
      .done (okRes scTeste true) ∧
    (runSched scTeste [true, true, true, true, false]).ts false =
      .done (failRes 3) ∧
    ¬(sucesso (okRes scTeste true) = true ∧ sucesso (failRes 3) = true) :=
  ⟨⟨by decide, by decide, by decide, by decide⟩, by decide, by decide,
    (c2_saida_concorrente scTeste ⟨by decide, by decide, by decide, by decide⟩
      [true, true, true, true, false] (okRes scTeste true) (failRes 3)
      (by decide) (by decide)).1⟩

/-! ### C10: the maximum stock threshold is never consulted -/

/-- Two produto rows that agree on everything except nivel_maximo. -/
def produtoEqExceptMax (p p' : Produto) : Prop :=
  p.sku_id = p'.sku_id ∧ p.nome = p'.nome ∧
  p.nivel_minimo = p'.nivel_minimo ∧ p.custo_fabricacao = p'.custo_fabricacao

/-- Two databases that agree on everything except the nivel_maximo column
of the produto table. -/
def dbEqExceptMax (db db' : DBState) : Prop :=
  List.Forall₂ produtoEqExceptMax db.produtos db'.produtos ∧
  db.saldos = db'.saldos ∧ db.movimentacoes = db'.movimentacoes ∧
  db.next_mov_id = db'.next_mov_id

theorem findProduto_rel (l l' : List Produto) (sk : String)
    (h : List.Forall₂ produtoEqExceptMax l l') :
    (findProduto l sk = none ∧ findProduto l' sk = none) ∨
    ∃ p p', findProduto l sk = some p ∧ findProduto l' sk = some p' ∧
      produtoEqExceptMax p p' := by
  induction h with
  | nil => exact Or.inl ⟨rfl, rfl⟩
  | @cons a b l₀ l₀' hab hrest ih =>
    by_cases hsk : a.sku_id == sk
    · have hbsku : (b.sku_id == sk) = true := by
        rw [show b.sku_id = a.sku_id from hab.1.symm]
        exact hsk
      refine Or.inr ⟨a, b, ?_, ?_, hab⟩
      · unfold findProduto
        exact List.find?_cons_of_pos _ hsk
      · unfold findProduto
        exact List.find?_cons_of_pos _ hbsku
    · have hbsku : ¬(b.sku_id == sk) = true := by
        rw [show b.sku_id = a.sku_id from hab.1.symm]
        exact hsk
      have e1 : findProduto (a :: l₀) sk = findProduto l₀ sk := by
        unfold findProduto
        exact List.find?_cons_of_neg _ hsk
      have e2 : findProduto (b :: l₀') sk = findProduto l₀' sk := by
        unfold findProduto
        exact List.find?_cons_of_neg _ hbsku
      rcases ih with ⟨i1, i2⟩ | ⟨p, p', i1, i2, i3⟩
      · exact Or.inl ⟨e1.trans i1, e2.trans i2⟩
      · exact Or.inr ⟨p, p', e1.trans i1, e2.trans i2, i3⟩

/-- The advisory alert only reads sku_id and nivel_minimo of the produto
table, so it cannot tell the two related tables apart. -/
theorem alertaMinimo_rel (mov : MovimentacaoCreate) (novo : Int)
    (l l' : List Produto) (h : List.Forall₂ produtoEqExceptMax l l') :
    alertaMinimo mov novo l = alertaMinimo mov novo l' := by
  unfold alertaMinimo
  by_cases hS : mov.tipo_movimentacao = "S"
  · simp only [if_pos hS]
    rcases findProduto_rel l l' mov.sku_id h with ⟨h1, h2⟩ | ⟨p, p', h1, h2, h3⟩
    · simp only [h1, h2]
    · simp only [h1, h2]
      rw [h3.2.2.1]
  · simp only [if_neg hS]

/-- The write phase treats two related databases identically. -/
theorem dbEqExceptMax_registrar (mov : MovimentacaoCreate) (now : Nat)
    (novo : Int) (db db' : DBState) (h : dbEqExceptMax db db') :
    dbEqExceptMax (registrarMovEAtualizarSaldo mov now novo db)
      (registrarMovEAtualizarSaldo mov now novo db') := by
  obtain ⟨hp, hs, hm, hn⟩ := h
  refine ⟨by simpa using hp, ?_, ?_, ?_⟩
  · show (db.saldos.map _) = (db'.saldos.map _)
    rw [hs]
  · show db.movimentacoes ++ _ = db'.movimentacoes ++ _
    rw [hm, hn]
  · show db.next_mov_id + 1 = db'.next_mov_id + 1
    rw [hn]

/-- Claim C10: no ledger operation consults nivel_maximo.  For two
databases that differ only in that column, lancar_movimentacao returns the
same result and again-related databases, consultar_saldo returns the same
result and leaves both unchanged, and in particular an entrada on a
registered SKU always succeeds with alert false, raising the balance
arbitrarily with no bound check against the maximum. -/
theorem c10_nivel_maximo_irrelevante :
    (∀ (mov : MovimentacaoCreate) (now : Nat) (ok : Bool) (db db' : DBState),
      dbEqExceptMax db db' →
        (lancar_movimentacao mov now ok db).1 =
          (lancar_movimentacao mov now ok db').1 ∧
        dbEqExceptMax (lancar_movimentacao mov now ok db).2
          (lancar_movimentacao mov now ok db').2) ∧
    (∀ (sku_id : String) (db db' : DBState), dbEqExceptMax db db' →
      (consultar_saldo sku_id db).1 = (consultar_saldo sku_id db').1 ∧
      dbEqExceptMax (consultar_saldo sku_id db).2 (consultar_saldo sku_id db').2) ∧
    (∀ (mov : MovimentacaoCreate) (now : Nat) (db : DBState) (r : Saldo),
      mov.tipo_movimentacao = "E" →
      findSaldo db.saldos mov.sku_id = some r →
      (lancar_movimentacao mov now true db).1 =
        .ok ⟨movMessage mov, mov.sku_id, r.saldo_atual + mov.quantidade, false⟩) := by
  refine ⟨?_, ?_, ?_⟩
  · intro mov now ok db db' hrel
    obtain ⟨hp, hs, hm, hn⟩ := hrel
    have halert : ∀ novo, alertaMinimo mov novo db.produtos =
        alertaMinimo mov novo db'.produtos :=
      fun novo => alertaMinimo_rel mov novo _ _ hp
    unfold lancar_movimentacao finalizarMovimentacao
    rw [← hs]
    by_cases htipo : mov.tipo_movimentacao ≠ "E" ∧ mov.tipo_movimentacao ≠ "S"
    · simp only [if_pos htipo]
      exact ⟨trivial, hp, hs, hm, hn⟩
    · simp only [if_neg htipo]
      cases hfind : findSaldo db.saldos mov.sku_id with
      | none =>
        simp only [hfind]
        exact ⟨trivial, hp, hs, hm, hn⟩
      | some r =>
        simp only [hfind]
        by_cases hE : mov.tipo_movimentacao = "E"
        · simp only [if_pos hE]
          cases ok with
          | true =>
            simp only [if_true]
            constructor
            · simp [halert]
            · exact dbEqExceptMax_registrar mov now _ db db' ⟨hp, hs, hm, hn⟩
          | false =>
            simp only [Bool.false_eq_true, if_false]
            exact ⟨trivial, hp, hs, hm, hn⟩
        · simp only [if_neg hE]
          by_cases hgt : mov.quantidade > r.saldo_atual
          · simp only [if_pos hgt]
            exact ⟨trivial, hp, hs, hm, hn⟩
          · simp only [if_neg hgt]
            cases ok with
            | true =>
              simp only [if_true]
              constructor
              · simp [halert]
              · exact dbEqExceptMax_registrar mov now _ db db' ⟨hp, hs, hm, hn⟩
            | false =>
              simp only [Bool.false_eq_true, if_false]
              exact ⟨trivial, hp, hs, hm, hn⟩
  · intro sku_id db db' hrel
    obtain ⟨hp, hs, hm, hn⟩ := hrel
    unfold consultar_saldo
    rw [← hs]
    cases hfind : findSaldo db.saldos sku_id with
    | none => simp only [hfind]; exact ⟨trivial, hp, hs, hm, hn⟩
    | some r => simp only [hfind]; exact ⟨trivial, hp, hs, hm, hn⟩
  · intro mov now db r hE hfind
    rw [lancar_entrada_eq mov now db r hE hfind]
    simp [alertaMinimo, hE]

/-- A produto whose maximum threshold 1000 is far above the balance. -/
def produtoMaxA : Produto := ⟨"A1", "Parafuso", 5, 1000, 2.0⟩

/-- The same produto with maximum threshold 7, already below the balance
that the entrada below produces. -/
def produtoMaxB : Produto := ⟨"A1", "Parafuso", 5, 7, 2.0⟩

/-- Balance 10 under the high maximum. -/
def dbMaxA : DBState := ⟨[produtoMaxA], [⟨"A1", 10, 1⟩], [], 1⟩

/-- Balance 10 under the low maximum. -/
def dbMaxB : DBState := ⟨[produtoMaxB], [⟨"A1", 10, 1⟩], [], 1⟩

theorem c10_nivel_maximo_irrelevante_witness :
    dbEqExceptMax dbMaxA dbMaxB ∧
    (lancar_movimentacao ⟨"A1", "E", 5000⟩ 9 true dbMaxA).1 =
      (lancar_movimentacao ⟨"A1", "E", 5000⟩ 9 true dbMaxB).1 ∧
    ("A1" : String) = "A1" ∧
    (lancar_movimentacao ⟨"A1", "E", 5000⟩ 9 true dbMaxB).1 =
      .ok ⟨movMessage ⟨"A1", "E", 5000⟩, "A1", 10 + 5000, false⟩ :=
  ⟨⟨List.Forall₂.cons ⟨rfl, rfl, rfl, rfl⟩ List.Forall₂.nil, rfl, rfl, rfl⟩,
    (c10_nivel_maximo_irrelevante.1 ⟨"A1", "E", 5000⟩ 9 true dbMaxA dbMaxB
      ⟨List.Forall₂.cons ⟨rfl, rfl, rfl, rfl⟩ List.Forall₂.nil, rfl, rfl, rfl⟩).1,
    rfl,
    c10_nivel_maximo_irrelevante.2.2 ⟨"A1", "E", 5000⟩ 9 dbMaxB ⟨"A1", 10, 1⟩
      rfl rfl⟩
